import Mathlib

/-!
Shallow embedding of the scraping pipeline in `scraping/scripts/index.py`
and its HTTP adapter `scraping/scripts/app.py`.

The document tree models a BeautifulSoup parse tree: elements have a tag
name, a list of CSS classes, an attribute list and children; text nodes
carry raw strings.  `find_all`/`find` searches are pre-order (document
order), `find_parent` walks the ancestor chain nearest-first, and
`get_text(strip=True)` concatenates the individually-trimmed text nodes
of the subtree.  A found Tag is always truthy in bs4 (`Tag.__bool__`
returns `True`), so the Python `if tag` checks test presence, which the
embedding renders as `Option` matching.
-/

inductive Node where
  | text (s : String)
  | elem (tag : String) (classes : List String) (attrs : List (String × String))
      (children : List Node)

/-- Children of a node (text nodes have none). -/
def Node.children : Node → List Node
  | .text _ => []
  | .elem _ _ _ cs => cs

/-- Does this node match a bs4 query `find(tag, class_=cls)`?  A tag name must
match exactly; a class constraint means the class list contains that class.
Text nodes never match. -/
def Node.matches (tag : String) (cls : Option String) : Node → Bool
  | .text _ => false
  | .elem t c _ _ =>
      t == tag && (match cls with | none => true | some cl => c.contains cl)

/-- Attribute lookup, `tag[k]` / `tag.has_attr(k)`. -/
def Node.getAttr (k : String) : Node → Option String
  | .text _ => none
  | .elem _ _ a _ => (a.find? (fun p => p.1 == k)).map (fun p => p.2)

/-- Model of Python `str.strip()`: drop leading and trailing whitespace. -/
def pyStrip (s : String) : String :=
  ⟨((s.data.dropWhile Char.isWhitespace).reverse.dropWhile Char.isWhitespace).reverse⟩

mutual
/-- Model of `get_text(strip=True)`: concatenation of each text node stripped
individually, in document order. -/
def stripText : Node → String
  | .text s => pyStrip s
  | .elem _ _ _ cs => stripTextList cs

def stripTextList : List Node → String
  | [] => ""
  | n :: ns => stripText n ++ stripTextList ns
end

mutual
/-- All elements matching `(tag, cls)` in the subtree rooted at the given node
(the node itself included), paired with their ancestor chain, nearest ancestor
first.  Pre-order, i.e. document order — the order `find_all` returns. -/
def findAllAnc (tag : String) (cls : Option String) (anc : List Node) :
    Node → List (Node × List Node)
  | .text _ => []
  | .elem t c a cs =>
      (if Node.matches tag cls (.elem t c a cs) then [(Node.elem t c a cs, anc)] else [])
        ++ findAllAncList tag cls (Node.elem t c a cs :: anc) cs

def findAllAncList (tag : String) (cls : Option String) (anc : List Node) :
    List Node → List (Node × List Node)
  | [] => []
  | n :: ns => findAllAnc tag cls anc n ++ findAllAncList tag cls anc ns
end

/-- Model of `soup.find_all(tag, class_=cls)` with ancestor chains: searches
the document contents (the BeautifulSoup root object is not itself a Tag). -/
def soupFindAll (tag : String) (cls : Option String) (soup : Node) :
    List (Node × List Node) :=
  findAllAncList tag cls [] soup.children

/-- Model of `node.find(tag, class_=cls)`: first matching descendant (the
node itself excluded), in document order. -/
def findDesc (tag : String) (cls : Option String) (n : Node) : Option Node :=
  (findAllAncList tag cls [] n.children).head?.map (fun p => p.1)

/-- Model of `marker.find_parent(tag)`: search the ancestor chain, nearest
ancestor first. -/
def findParent (tag : String) (anc : List Node) : Option Node :=
  anc.find? (Node.matches tag none)

/-! ## Sentinels

The sentinel strings of the source are Japanese literals; the spec names them
by their English glosses.  `no_header_info` is the literal meaning "no header
info", and so on. -/

def no_header_info : String := "ヘッダー情報なし"
def no_price_info : String := "価格情報なし"
def no_shipping_info : String := "配送情報なし"
def no_stock_info : String := "在庫情報なし"
def no_shop_name : String := "ショップ名なし"
def no_url : String := "URLなし"
def no_area_info : String := "エリア情報なし"

/-- Model of `tag.get_text(strip=True) if tag else sentinel` — the per-field
fallback pattern of `extract_rankings`. -/
def textOrElse (o : Option Node) (sentinel : String) : String :=
  match o with
  | some t => stripText t
  | none => sentinel

/-- Model of `rank_number_tag.get_text(strip=True)`, which has no `None`
guard: the Python raises `AttributeError` if the tag were absent.  That case is unreachable in
`extract_rankings` (the row was found as an ancestor of a marker span, so it
contains at least one marker span); the embedding maps it to an inert string. -/
def getTextBang (o : Option Node) : String :=
  match o with
  | some t => stripText t
  | none => "AttributeError"

/-- One ranked seller offer: the dict appended to `rankings` in
`extract_rankings`, with its eight keys `Header, Rank, Price, Shipping,
Stock, Shop Name, Shop URL, Shop Area`. -/
structure RankingEntry where
  header : String
  rank : String
  price : String
  shipping : String
  stock : String
  shopName : String
  shopUrl : String
  shopArea : String
deriving DecidableEq, Repr

/-- Model of `soup.find(tag, class_=cls)`: first matching element of the
document, in document order. -/
def soupFind (tag : String) (cls : Option String) (soup : Node) : Option Node :=
  (soupFindAll tag cls soup).head?.map (fun p => p.1)

/-- Model of `get_header_text(soup)`: first `h1` of the document, else the
header sentinel. -/
def get_header_text (soup : Node) : String :=
  textOrElse (soupFind "h1" none soup) no_header_info

/-- The body of the `for rank_section in ranking_sections[:top_n]` loop after
the `find_parent` guard: every lookup is scoped to `parent_tr`. -/
def entryOfRow (header_text : String) (parent_tr : Node) : RankingEntry :=
  let rank_number_tag := findDesc "span" (some "p-PTRank") parent_tr
  let rank_number_text := getTextBang rank_number_tag
  let price_tag := findDesc "p" (some "p-PTPrice_price") parent_tr
  let price_sub_tag := findDesc "p" (some "p-PTPrice_sub") parent_tr
  let price_sub_tag_text := textOrElse price_sub_tag ""
  let price_text :=
    match price_tag, price_sub_tag with
    | some pt, some _ => stripText pt ++ price_sub_tag_text
    | _, _ => no_price_info
  let shipping_tag := findDesc "button" (some "p-PTShipping_btn") parent_tr
  let shipping_text := textOrElse shipping_tag no_shipping_info
  let stock_tag := findDesc "p" (some "p-PTStock") parent_tr
  let stock_text := textOrElse stock_tag no_stock_info
  let shop_tag := findDesc "a" (some "p-PTShopData_name_link") parent_tr
  let shop_name := textOrElse shop_tag no_shop_name
  let shop_url :=
    match shop_tag with
    | some t => match t.getAttr "href" with
      | some v => v
      | none => no_url
    | none => no_url
  let shop_area_tag := findDesc "span" (some "p-PTShopData_name_area") parent_tr
  let shop_area_text := textOrElse shop_area_tag no_area_info
  { header := header_text, rank := rank_number_text, price := price_text,
    shipping := shipping_text, stock := stock_text, shopName := shop_name,
    shopUrl := shop_url, shopArea := shop_area_text }

/-- The `ranking_sections` list: `find_all` of marker spans (class
`p-PTRank`) with ancestor chains, in document order. -/
def rankingSections (soup : Node) : List (Node × List Node) :=
  soupFindAll "span" (some "p-PTRank") soup

/-- One iteration of the extraction loop: `None` exactly when
`find_parent` fails to find a `tr` (the `continue` branch). -/
def entryOfSection (header_text : String) (p : Node × List Node) :
    Option RankingEntry :=
  match findParent "tr" p.2 with
  | none => none
  | some parent_tr => some (entryOfRow header_text parent_tr)

/-- Model of `extract_rankings(soup, top_n=20)`. -/
def extract_rankings (soup : Node) (top_n : Nat := 20) : List RankingEntry :=
  let ranking_sections := rankingSections soup
  if ranking_sections.isEmpty then []
  else
    (ranking_sections.take top_n).filterMap (entryOfSection (get_header_text soup))

/-! ## Persistence (`save_to_csv`, `save_html`)

The filesystem is modelled by the set of existing directories; `os.makedirs`
with `exist_ok=True` succeeds whether or not the directory exists, but raises
`FileNotFoundError` on the empty path (which `os.path.dirname` yields for a
bare filename).  A successful save is one `FileWrite`; a raised exception
produces none. -/

/-- Model of POSIX `os.path.dirname`: the prefix up to the last `/` with trailing
slashes stripped (kept when the prefix is all slashes); `""` when the path has
no `/` at all. -/
def dirname (p : String) : String :=
  let head := (p.data.reverse.dropWhile (fun c => c ≠ '/')).reverse
  if head.isEmpty then ""
  else if head.all (fun c => c = '/') then ⟨head⟩
  else ⟨(head.reverse.dropWhile (fun c => c = '/')).reverse⟩

/-- One file written to disk. -/
structure FileWrite where
  path : String
  content : String
deriving DecidableEq, Repr

/-- Model of `os.makedirs(d, exist_ok=True)` given the directories that already exist:
raises on the empty path, otherwise succeeds (creating or keeping the
directory). -/
def makedirs (existingDirs : List String) (d : String) : Except String Unit :=
  if d = "" then .error "FileNotFoundError"
  else
    let _ := existingDirs.contains d
    .ok ()

mutual
/-- Model of `str(soup)`: serialize the tree back to markup text. -/
def render : Node → String
  | .text s => s
  | .elem t cls attrs cs =>
      "<" ++ t
        ++ (if cls.isEmpty then "" else " class=\x22" ++ String.intercalate " " cls ++ "\x22")
        ++ String.join (attrs.map (fun a => " " ++ a.1 ++ "=\x22" ++ a.2 ++ "\x22"))
        ++ ">" ++ renderList cs ++ "</" ++ t ++ ">"

def renderList : List Node → String
  | [] => ""
  | n :: ns => render n ++ renderList ns
end

/-- The fixed column order of the tabular export. -/
def csvHeader : String :=
  "Header,Rank,Price,Shipping,Stock,Shop Name,Shop URL,Shop Area"

/-- One CSV row per entry (cell quoting and the BOM of `utf-8-sig` are
abstracted away; no claim depends on them). -/
def csvLine (e : RankingEntry) : String :=
  String.intercalate "," [e.header, e.rank, e.price, e.shipping, e.stock,
    e.shopName, e.shopUrl, e.shopArea]

/-- Model of `pd.DataFrame(rankings).to_csv(filepath, index=False, ...)`:
header row then one row per entry, in order. -/
def csvContent (rows : List RankingEntry) : String :=
  csvHeader ++ "\n" ++ String.join (rows.map (fun e => csvLine e ++ "\n"))

/-- Model of `save_to_csv(data, filepath)`: ensure the directory exists, then
write. -/
def save_to_csv (existingDirs : List String) (data : List RankingEntry)
    (filepath : String) : Except String FileWrite :=
  match makedirs existingDirs (dirname filepath) with
  | .error e => .error e
  | .ok _ => .ok ⟨filepath, csvContent data⟩

/-- Model of `save_html(soup, filepath)`: ensure the directory exists, then
write `str(soup)`. -/
def save_html (existingDirs : List String) (soup : Node) (filepath : String) :
    Except String FileWrite :=
  match makedirs existingDirs (dirname filepath) with
  | .error e => .error e
  | .ok _ => .ok ⟨filepath, render soup⟩

/-! ## Fetching (`fetch_html`) and the pipeline (`scrape_urls`, `scrape_api`)

The network is a parameter: a fetch either fails in transport, fails while
decoding the body (both are `requests.exceptions.RequestException`s, caught
by `fetch_html`), or yields a status code and a parsed body.
`raise_for_status()` raises `HTTPError` (also a `RequestException`) for
status codes 400–599. -/

inductive FetchOutcome where
  | transportError
  | decodeError
  | response (status : Nat) (body : Node)

/-- Model of `fetch_html(target_url, headers)`: the parsed document on
success, `None` when a `RequestException` was caught. -/
def fetch_html (outcome : FetchOutcome) : Option Node :=
  match outcome with
  | .transportError => none
  | .decodeError => none
  | .response status body =>
      if 400 ≤ status ∧ status < 600 then none else some body

/-- How one `scrape_urls` call terminated: the early `return` after a failed
fetch, an exception escaping from a save, the empty-rankings message, or the
full run with a CSV export. -/
inductive ScrapeResult where
  | fetchFailure
  | exn (msg : String)
  | emptyRankings
  | savedRankings
deriving DecidableEq, Repr

/-- Observable outcome of `scrape_urls`: which branch it took, the Python
return value handed to the caller, and the files written.  Every `return`
path of the source returns `None`, so `retVal` is `none` on every branch. -/
structure ScrapeRun where
  result : ScrapeResult
  retVal : Option (List RankingEntry)
  writes : List FileWrite
deriving DecidableEq, Repr

/-- Model of `scrape_urls(target_url, output_html, rankings_csv)`, with the
network response and the existing directories as explicit parameters. -/
def scrape_urls (existingDirs : List String) (outcome : FetchOutcome)
    (output_html rankings_csv : String) : ScrapeRun :=
  match fetch_html outcome with
  | none => ⟨.fetchFailure, none, []⟩
  | some soup =>
    match save_html existingDirs soup output_html with
    | .error e => ⟨.exn e, none, []⟩
    | .ok htmlWrite =>
      let rankings := extract_rankings soup
      if rankings.isEmpty then ⟨.emptyRankings, none, [htmlWrite]⟩
      else
        match save_to_csv existingDirs rankings rankings_csv with
        | .error e => ⟨.exn e, none, [htmlWrite]⟩
        | .ok csvWrite => ⟨.savedRankings, none, [htmlWrite, csvWrite]⟩

/-- Model of `scrape_api` (app.py): the HTTP status it answers with.  It
answers `400` without an `itemId`; otherwise it branches on the value
`scrape_urls` returned: `None` gives `500`, an empty list `404`, a non-empty
list `200`. -/
def scrape_api (existingDirs : List String) (itemId : Option String)
    (outcome : FetchOutcome) : Nat :=
  match itemId with
  | none => 400
  | some item_id =>
    if item_id = "" then 400
    else
      let output_html := "data/fetched_" ++ item_id ++ ".html"
      let rankings_csv := "data/top10_rankings_" ++ item_id ++ ".csv"
      let run := scrape_urls existingDirs outcome output_html rankings_csv
      match run.result with
      | .exn _ => 500
      | _ =>
        match run.retVal with
        | none => 500
        | some [] => 404
        | some (_ :: _) => 200

/-! ## Concrete documents used as test inputs -/

/-- A full row: rank, both price tags, shipping, stock, shop link with
`href`, and area (concrete scenario A of the spec). -/
def fullRow : Node :=
  .elem "tr" [] []
    [.elem "td" [] []
      [.elem "span" ["p-PTRank"] [] [.text "1"],
       .elem "p" ["p-PTPrice_price"] [] [.text "¥1,000"],
       .elem "p" ["p-PTPrice_sub"] [] [.text "(tax incl.)"],
       .elem "button" ["p-PTShipping_btn"] [] [.text "Free"],
       .elem "p" ["p-PTStock"] [] [.text "In stock"],
       .elem "a" ["p-PTShopData_name_link"] [("href", "https://shopa.example")]
         [.text "Shop A"],
       .elem "span" ["p-PTShopData_name_area"] [] [.text "Tokyo"]]]

/-- Scenario A document: header `Widget X`, one full row. -/
def sampleDoc : Node :=
  .elem "[document]" [] []
    [.elem "html" [] []
      [.elem "body" [] []
        [.elem "h1" [] [] [.text "Widget X"],
         .elem "table" [] [] [fullRow]]]]

/-- The entry scenario A expects. -/
def sampleEntry : RankingEntry :=
  { header := "Widget X", rank := "1", price := "¥1,000(tax incl.)",
    shipping := "Free", stock := "In stock", shopName := "Shop A",
    shopUrl := "https://shopa.example", shopArea := "Tokyo" }

/-- A document with a header but no ranking markers at all. -/
def noMarkerDoc : Node :=
  .elem "[document]" [] []
    [.elem "html" [] []
      [.elem "body" [] []
        [.elem "h1" [] [] [.text "Widget X"],
         .elem "table" [] [] []]]]

/-- A document whose single marker has no `tr` ancestor. -/
def rowlessMarkerDoc : Node :=
  .elem "[document]" [] []
    [.elem "html" [] []
      [.elem "body" [] []
        [.elem "h1" [] [] [.text "Widget X"],
         .elem "div" [] [] [.elem "span" ["p-PTRank"] [] [.text "1"]]]]]

/-- A document whose single marker sits in a row but has empty text, and
whose other field tags are absent. -/
def emptyRankDoc : Node :=
  .elem "[document]" [] []
    [.elem "html" [] []
      [.elem "body" [] []
        [.elem "h1" [] [] [.text "Widget X"],
         .elem "table" [] []
           [.elem "tr" [] [] [.elem "span" ["p-PTRank"] [] []]]]]]

/-- One row containing two marker spans, with texts `1` and `2`. -/
def twoMarkerRow : Node :=
  .elem "tr" [] []
    [.elem "span" ["p-PTRank"] [] [.text "1"],
     .elem "span" ["p-PTRank"] [] [.text "2"]]

/-- A document whose single row encloses two markers. -/
def twoMarkerDoc : Node :=
  .elem "[document]" [] []
    [.elem "html" [] []
      [.elem "body" [] []
        [.elem "h1" [] [] [.text "Widget X"],
         .elem "table" [] [] [twoMarkerRow]]]]

/-- The entry both markers of `twoMarkerDoc` produce: rank text of the first
marker of the row, sentinels elsewhere. -/
def twoMarkerEntry : RankingEntry :=
  { header := "Widget X", rank := "1", price := no_price_info,
    shipping := no_shipping_info, stock := no_stock_info,
    shopName := no_shop_name, shopUrl := no_url, shopArea := no_area_info }

/-! ## Field rules

Each rule states the per-field contract of the extraction loop: the field
equals the stripped text of the element the lookup found, or the
field-specific sentinel when the lookup found nothing. -/

/-- The generic lookup contract: stripped text when found, sentinel when not. -/
def FoundRule (o : Option Node) (sentinel field : String) : Prop :=
  match o with
  | some t => field = stripText t
  | none => field = sentinel

/-- Shipping lookup: `button` with class `p-PTShipping_btn` inside the row. -/
def ShippingRule (tr : Node) (field : String) : Prop :=
  FoundRule (findDesc "button" (some "p-PTShipping_btn") tr) no_shipping_info field

/-- Stock lookup: `p` with class `p-PTStock` inside the row. -/
def StockRule (tr : Node) (field : String) : Prop :=
  FoundRule (findDesc "p" (some "p-PTStock") tr) no_stock_info field

/-- Shop-name lookup: `a` with class `p-PTShopData_name_link` inside the row. -/
def ShopNameRule (tr : Node) (field : String) : Prop :=
  FoundRule (findDesc "a" (some "p-PTShopData_name_link") tr) no_shop_name field

/-- Shop-area lookup: `span` with class `p-PTShopData_name_area` inside the
row. -/
def AreaRule (tr : Node) (field : String) : Prop :=
  FoundRule (findDesc "span" (some "p-PTShopData_name_area") tr) no_area_info field

/-- Shop-URL rule: the `href` of the shop link if the link exists and carries
one, the URL sentinel otherwise. -/
def ShopUrlRule (tr : Node) (field : String) : Prop :=
  match findDesc "a" (some "p-PTShopData_name_link") tr with
  | some t =>
    match t.getAttr "href" with
    | some v => field = v
    | none => field = no_url
  | none => field = no_url

/-- Rank rule: the stripped text of the first marker span found inside the
row (not necessarily the marker being iterated). -/
def RankRule (tr : Node) (field : String) : Prop :=
  field = getTextBang (findDesc "span" (some "p-PTRank") tr)

/-- Price rule: the concatenation of both stripped price texts when both tags
are present, the price sentinel when either is absent; never a partial
concatenation. -/
def PriceRule (tr : Node) (field : String) : Prop :=
  (∃ pt sub, findDesc "p" (some "p-PTPrice_price") tr = some pt ∧
    findDesc "p" (some "p-PTPrice_sub") tr = some sub ∧
    field = stripText pt ++ stripText sub) ∨
  ((findDesc "p" (some "p-PTPrice_price") tr = none ∨
    findDesc "p" (some "p-PTPrice_sub") tr = none) ∧
    field = no_price_info)

/-! ## Helper lemmas about the extraction loop -/

theorem length_filterMap_eq_countP {α β : Type} (f : α → Option β) (l : List α) :
    (l.filterMap f).length = l.countP (fun a => (f a).isSome) := by
  induction l with
  | nil => rfl
  | cons a l ih =>
    cases h : f a with
    | none => simp [List.filterMap_cons, List.countP_cons, h, ih]
    | some b => simp [List.filterMap_cons, List.countP_cons, h, ih]

theorem entryOfSection_isSome (h : String) (p : Node × List Node) :
    (entryOfSection h p).isSome = (findParent "tr" p.2).isSome := by
  unfold entryOfSection
  cases findParent "tr" p.2 <;> rfl

theorem extract_eq_filterMap (soup : Node) (n : Nat) :
    extract_rankings soup n =
      ((rankingSections soup).take n).filterMap
        (entryOfSection (get_header_text soup)) := by
  unfold extract_rankings
  by_cases hrs : (rankingSections soup).isEmpty
  · rw [List.isEmpty_iff] at hrs
    simp [hrs]
  · simp [hrs]

theorem extract_mem_row {soup : Node} {n : Nat} {e : RankingEntry}
    (h : e ∈ extract_rankings soup n) :
    ∃ p ∈ (rankingSections soup).take n, ∃ tr,
      findParent "tr" p.2 = some tr ∧
      e = entryOfRow (get_header_text soup) tr := by
  rw [extract_eq_filterMap] at h
  rw [List.mem_filterMap] at h
  obtain ⟨p, hp, hpe⟩ := h
  refine ⟨p, hp, ?_⟩
  unfold entryOfSection at hpe
  cases htr : findParent "tr" p.2 with
  | none => rw [htr] at hpe; exact absurd hpe (by simp)
  | some tr =>
    rw [htr] at hpe
    exact ⟨tr, rfl, by injection hpe with h2; exact h2.symm⟩

theorem foundRule_textOrElse (o : Option Node) (sentinel : String) :
    FoundRule o sentinel (textOrElse o sentinel) := by
  cases o <;> simp [FoundRule, textOrElse]

theorem entryOfRow_header (h : String) (tr : Node) :
    (entryOfRow h tr).header = h := rfl

theorem entryOfRow_rank (h : String) (tr : Node) :
    (entryOfRow h tr).rank = getTextBang (findDesc "span" (some "p-PTRank") tr) := rfl

theorem entryOfRow_shipping (h : String) (tr : Node) :
    (entryOfRow h tr).shipping =
      textOrElse (findDesc "button" (some "p-PTShipping_btn") tr) no_shipping_info := rfl

theorem entryOfRow_stock (h : String) (tr : Node) :
    (entryOfRow h tr).stock =
      textOrElse (findDesc "p" (some "p-PTStock") tr) no_stock_info := rfl

theorem entryOfRow_shopName (h : String) (tr : Node) :
    (entryOfRow h tr).shopName =
      textOrElse (findDesc "a" (some "p-PTShopData_name_link") tr) no_shop_name := rfl

theorem entryOfRow_shopUrlRule (h : String) (tr : Node) :
    ShopUrlRule tr (entryOfRow h tr).shopUrl := by
  unfold ShopUrlRule entryOfRow
  cases hs : findDesc "a" (some "p-PTShopData_name_link") tr with
  | none => simp [hs]
  | some t =>
    cases ha : t.getAttr "href" with
    | none => simp [hs, ha]
    | some v => simp [hs, ha]

theorem entryOfRow_shopArea (h : String) (tr : Node) :
    (entryOfRow h tr).shopArea =
      textOrElse (findDesc "span" (some "p-PTShopData_name_area") tr) no_area_info := rfl

theorem entryOfRow_priceRule (h : String) (tr : Node) :
    PriceRule tr (entryOfRow h tr).price := by
  unfold PriceRule entryOfRow
  cases hp : findDesc "p" (some "p-PTPrice_price") tr with
  | none => right; simp [hp]
  | some pt =>
    cases hs : findDesc "p" (some "p-PTPrice_sub") tr with
    | none => right; simp [hp, hs]
    | some sub => left; exact ⟨pt, sub, rfl, rfl, by simp [textOrElse]⟩

/-! ## The claims -/

set_option maxRecDepth 100000 in
/-- C1: the spec requires `scrape_urls` to return the ordered sequence of
extracted entries on success-with-data so the caller can distinguish the
three outcomes, and `scrape_api` in app.py branches on exactly that return
value; but every path of `scrape_urls` returns `None`, so on a successful
fetch of a document with one full ranking row the extraction is non-empty
while the caller still receives `None` and answers 500.  The code contradicts
its own caller: this is a code bug, evaluated here at the failing input. -/
theorem c1_return_value_lost :
    extract_rankings sampleDoc ≠ [] ∧
    (scrape_urls [] (.response 200 sampleDoc)
        "data/fetched_J0000037910.html" "data/top10_rankings_J0000037910.csv").retVal
      = none ∧
    scrape_api [] (some "J0000037910") (.response 200 sampleDoc) = 500 := by
  decide

/-- C2: for every entry the pipeline extracts, its price field obeys the
price-concatenation rule of its row: the concatenation of the stripped texts
of the primary and sub price tags when both are present, and the price
sentinel when either is absent — never a partial concatenation. -/
theorem c2_price_rule (soup : Node) (n : Nat) (e : RankingEntry)
    (h : e ∈ extract_rankings soup n) :
    ∃ p ∈ (rankingSections soup).take n, ∃ tr,
      findParent "tr" p.2 = some tr ∧ PriceRule tr e.price := by
  obtain ⟨p, hp, tr, htr, he⟩ := extract_mem_row h
  exact ⟨p, hp, tr, htr, he ▸ entryOfRow_priceRule _ tr⟩

theorem c2_price_rule_witness :
    sampleEntry ∈ extract_rankings sampleDoc 20 ∧
    ∃ p ∈ (rankingSections sampleDoc).take 20, ∃ tr,
      findParent "tr" p.2 = some tr ∧ PriceRule tr sampleEntry.price :=
  ⟨by decide, c2_price_rule sampleDoc 20 sampleEntry (by decide)⟩

/-- C3 counterexample: a document with `K = 1` marker element whose marker
has no enclosing `tr` yields zero entries, not `min(1, 20) = 1`. -/
theorem c3_counterexample :
    (rankingSections rowlessMarkerDoc).length = 1 ∧
    (extract_rankings rowlessMarkerDoc 20).length ≠
      min (rankingSections rowlessMarkerDoc).length 20 := by decide

/-- C3 (amended): extraction is the in-document-order traversal of the first
`topN` markers (so the order of the entries is the order the markers appear,
never re-sorted), and it returns exactly `min(K, N)` entries provided every
marker has an enclosing row; markers without a row are dropped. -/
theorem c3_count_and_order (soup : Node) (n : Nat) :
    extract_rankings soup n =
      ((rankingSections soup).take n).filterMap
        (entryOfSection (get_header_text soup)) ∧
    ((∀ p ∈ rankingSections soup, (findParent "tr" p.2).isSome) →
      (extract_rankings soup n).length = min (rankingSections soup).length n) := by
  refine ⟨extract_eq_filterMap soup n, fun hall => ?_⟩
  rw [extract_eq_filterMap, length_filterMap_eq_countP]
  have h1 : ∀ p ∈ (rankingSections soup).take n,
      (entryOfSection (get_header_text soup) p).isSome = true := by
    intro p hp
    rw [entryOfSection_isSome]
    exact hall p (List.take_subset n _ hp)
  rw [List.countP_eq_length.mpr h1, List.length_take, Nat.min_comm]

theorem c3_count_and_order_witness :
    (∀ p ∈ rankingSections sampleDoc, (findParent "tr" p.2).isSome) ∧
    (extract_rankings sampleDoc 20).length =
      min (rankingSections sampleDoc).length 20 :=
  ⟨by decide, (c3_count_and_order sampleDoc 20).2 (by decide)⟩

/-- C4 counterexample: a marker span with empty text sitting inside a row
produces an entry whose `Rank` field is the empty string, so not every field
of every returned entry is non-empty. -/
theorem c4_counterexample :
    (extract_rankings emptyRankDoc 20).length = 1 ∧
    List.map RankingEntry.rank (extract_rankings emptyRankDoc 20) = [""] := by
  decide

/-- C4 (amended): no field of a returned entry is ever missing — the header
equals the resolved page header, and every other field satisfies its lookup
rule (stripped text or `href` of a found element, else the field-specific
sentinel); all seven sentinels are non-empty, but a field obtained from a
found element may be the empty string when that element has empty stripped
text. -/
theorem c4_fields_total (soup : Node) (n : Nat) (e : RankingEntry)
    (h : e ∈ extract_rankings soup n) :
    e.header = get_header_text soup ∧
    (∃ p ∈ (rankingSections soup).take n, ∃ tr,
      findParent "tr" p.2 = some tr ∧
      RankRule tr e.rank ∧ PriceRule tr e.price ∧ ShippingRule tr e.shipping ∧
      StockRule tr e.stock ∧ ShopNameRule tr e.shopName ∧
      ShopUrlRule tr e.shopUrl ∧ AreaRule tr e.shopArea) ∧
    no_header_info ≠ "" ∧ no_price_info ≠ "" ∧ no_shipping_info ≠ "" ∧
    no_stock_info ≠ "" ∧ no_shop_name ≠ "" ∧ no_url ≠ "" ∧ no_area_info ≠ "" := by
  obtain ⟨p, hp, tr, htr, he⟩ := extract_mem_row h
  subst he
  refine ⟨entryOfRow_header _ tr, ⟨p, hp, tr, htr, ?_, ?_, ?_, ?_, ?_, ?_, ?_⟩,
    by decide, by decide, by decide, by decide, by decide, by decide, by decide⟩
  · exact entryOfRow_rank _ tr
  · exact entryOfRow_priceRule _ tr
  · rw [ShippingRule, entryOfRow_shipping]; exact foundRule_textOrElse _ _
  · rw [StockRule, entryOfRow_stock]; exact foundRule_textOrElse _ _
  · rw [ShopNameRule, entryOfRow_shopName]; exact foundRule_textOrElse _ _
  · exact entryOfRow_shopUrlRule _ tr
  · rw [AreaRule, entryOfRow_shopArea]; exact foundRule_textOrElse _ _

theorem c4_fields_total_witness :
    sampleEntry ∈ extract_rankings sampleDoc 20 ∧
    sampleEntry.header = get_header_text sampleDoc :=
  ⟨by decide, (c4_fields_total sampleDoc 20 sampleEntry (by decide)).1⟩

/-- C5: when the fetch fails — transport error, decode error, or an HTTP
status in the 400–599 range that `raise_for_status` turns into an exception —
the pipeline terminates at once in the fetch-failure branch and writes no
file at all. -/
theorem c5_fetch_failure_no_writes (fs : List String) (outcome : FetchOutcome)
    (p q : String)
    (h : outcome = .transportError ∨ outcome = .decodeError ∨
      ∃ c b, outcome = .response c b ∧ 400 ≤ c ∧ c < 600) :
    scrape_urls fs outcome p q = ⟨.fetchFailure, none, []⟩ := by
  have hf : fetch_html outcome = none := by
    rcases h with h | h | ⟨c, b, h, hc1, hc2⟩
    · rw [h]; rfl
    · rw [h]; rfl
    · rw [h]
      show (if 400 ≤ c ∧ c < 600 then none else some b) = none
      rw [if_pos ⟨hc1, hc2⟩]
  unfold scrape_urls
  rw [hf]

theorem c5_fetch_failure_no_writes_witness :
    scrape_urls [] (.response 404 sampleDoc)
        "data/fetched.html" "data/top10_rankings.csv"
      = ⟨.fetchFailure, none, []⟩ :=
  c5_fetch_failure_no_writes [] _ _ _
    (.inr (.inr ⟨404, sampleDoc, rfl, by decide, by decide⟩))

/-- C6: when the fetch succeeds (and the output paths have directories, as
the deployed paths under `data/` do), the raw document is written exactly
once whatever extraction yields; with zero entries the CSV save is not
invoked at all — the only write is the HTML snapshot — and the run completes
in the empty-rankings branch. -/
theorem c6_snapshot_always_csv_conditional (fs : List String)
    (outcome : FetchOutcome) (soup : Node) (p q : String)
    (hf : fetch_html outcome = some soup)
    (hp : dirname p ≠ "") (hq : dirname q ≠ "") :
    (extract_rankings soup = [] →
      scrape_urls fs outcome p q = ⟨.emptyRankings, none, [⟨p, render soup⟩]⟩) ∧
    (extract_rankings soup ≠ [] →
      scrape_urls fs outcome p q =
        ⟨.savedRankings, none,
          [⟨p, render soup⟩, ⟨q, csvContent (extract_rankings soup)⟩]⟩) := by
  have hsh : save_html fs soup p = .ok ⟨p, render soup⟩ := by
    unfold save_html makedirs
    rw [if_neg hp]
  have hsc : save_to_csv fs (extract_rankings soup) q
      = .ok ⟨q, csvContent (extract_rankings soup)⟩ := by
    unfold save_to_csv makedirs
    rw [if_neg hq]
  constructor
  · intro hemp
    unfold scrape_urls
    rw [hf]
    simp only [hsh, hemp, List.isEmpty_nil, if_pos]
  · intro hne
    unfold scrape_urls
    rw [hf]
    simp only [hsh]
    rw [if_neg (by simpa [List.isEmpty_iff] using hne), hsc]

theorem c6_snapshot_always_csv_conditional_witness :
    scrape_urls [] (.response 200 noMarkerDoc)
        "data/fetched.html" "data/top10_rankings.csv"
      = ⟨.emptyRankings, none, [⟨"data/fetched.html", render noMarkerDoc⟩]⟩ :=
  (c6_snapshot_always_csv_conditional [] (.response 200 noMarkerDoc) noMarkerDoc
    "data/fetched.html" "data/top10_rankings.csv" rfl
    (by decide) (by decide)).1 (by decide)

/-- C7: a marker without an enclosing `tr` contributes zero entries: the
number of extracted entries is exactly the number of markers among the first
`topN` whose ancestor chain contains a `tr` — rowless markers are skipped,
never emitted. -/
theorem c7_rowless_marker_skipped (soup : Node) (n : Nat) :
    (extract_rankings soup n).length =
      ((rankingSections soup).take n).countP
        (fun p => (findParent "tr" p.2).isSome) := by
  rw [extract_eq_filterMap, length_filterMap_eq_countP]
  exact List.countP_congr (fun p _ => by rw [entryOfSection_isSome])

/-- C8: every extracted entry's header, shipping, stock, shop-name, shop-URL
and shop-area fields follow the lookup contract: the stripped text of the
found element (for the URL, its `href`, with the URL sentinel when the link
lacks one), and the field-specific sentinel when the lookup finds nothing. -/
theorem c8_lookup_contract (soup : Node) (n : Nat) (e : RankingEntry)
    (h : e ∈ extract_rankings soup n) :
    FoundRule (soupFind "h1" none soup) no_header_info e.header ∧
    ∃ p ∈ (rankingSections soup).take n, ∃ tr,
      findParent "tr" p.2 = some tr ∧
      ShippingRule tr e.shipping ∧ StockRule tr e.stock ∧
      ShopNameRule tr e.shopName ∧ ShopUrlRule tr e.shopUrl ∧
      AreaRule tr e.shopArea := by
  obtain ⟨p, hp, tr, htr, he⟩ := extract_mem_row h
  subst he
  refine ⟨?_, p, hp, tr, htr, ?_, ?_, ?_, ?_, ?_⟩
  · rw [entryOfRow_header]
    unfold get_header_text
    exact foundRule_textOrElse _ _
  · rw [ShippingRule, entryOfRow_shipping]; exact foundRule_textOrElse _ _
  · rw [StockRule, entryOfRow_stock]; exact foundRule_textOrElse _ _
  · rw [ShopNameRule, entryOfRow_shopName]; exact foundRule_textOrElse _ _
  · exact entryOfRow_shopUrlRule _ tr
  · rw [AreaRule, entryOfRow_shopArea]; exact foundRule_textOrElse _ _

theorem c8_lookup_contract_witness :
    sampleEntry ∈ extract_rankings sampleDoc 20 ∧
    FoundRule (soupFind "h1" none sampleDoc) no_header_info sampleEntry.header :=
  ⟨by decide, (c8_lookup_contract sampleDoc 20 sampleEntry (by decide)).1⟩

/-- C9: every entry's rank is the stripped text of the first marker span of
its row, not of the marker being iterated; concretely, a row enclosing two
markers (texts `1` and `2`) yields two entries, both with rank `1`. -/
theorem c9_rank_from_first_marker :
    (∀ (soup : Node) (n : Nat) (e : RankingEntry), e ∈ extract_rankings soup n →
      ∃ p ∈ (rankingSections soup).take n, ∃ tr,
        findParent "tr" p.2 = some tr ∧ RankRule tr e.rank) ∧
    (rankingSections twoMarkerDoc).length = 2 ∧
    extract_rankings twoMarkerDoc 20 = [twoMarkerEntry, twoMarkerEntry] := by
  refine ⟨?_, by decide, by decide⟩
  intro soup n e h
  obtain ⟨p, hp, tr, htr, he⟩ := extract_mem_row h
  exact ⟨p, hp, tr, htr, he ▸ entryOfRow_rank _ tr⟩

theorem c9_rank_from_first_marker_witness :
    twoMarkerEntry ∈ extract_rankings twoMarkerDoc 20 ∧
    ∃ p ∈ (rankingSections twoMarkerDoc).take 20, ∃ tr,
      findParent "tr" p.2 = some tr ∧ RankRule tr twoMarkerEntry.rank :=
  ⟨by decide,
    c9_rank_from_first_marker.1 twoMarkerDoc 20 twoMarkerEntry (by decide)⟩

/-- C10: with a bare filename (empty directory component) both save
operations fail in `makedirs` before producing any write; with a non-empty
directory component `makedirs` succeeds whether or not the directory already
exists, and each save produces its write. -/
theorem c10_save_directory_step (fs : List String) (data : List RankingEntry)
    (soup : Node) (fp : String) :
    (dirname fp = "" →
      save_to_csv fs data fp = .error "FileNotFoundError" ∧
      save_html fs soup fp = .error "FileNotFoundError") ∧
    (dirname fp ≠ "" →
      makedirs fs (dirname fp) = .ok () ∧
      save_to_csv fs data fp = .ok ⟨fp, csvContent data⟩ ∧
      save_html fs soup fp = .ok ⟨fp, render soup⟩) := by
  constructor
  · intro hdir
    unfold save_to_csv save_html makedirs
    rw [hdir]
    exact ⟨rfl, rfl⟩
  · intro hdir
    unfold save_to_csv save_html makedirs
    rw [if_neg hdir]
    exact ⟨rfl, rfl, rfl⟩

theorem c10_save_directory_step_witness :
    (save_to_csv [] [] "top10_rankings.csv" = .error "FileNotFoundError" ∧
      save_html [] sampleDoc "top10_rankings.csv" = .error "FileNotFoundError") ∧
    (makedirs ["data"] (dirname "data/fetched.html") = .ok () ∧
      save_to_csv ["data"] [] "data/fetched.html" = .ok ⟨"data/fetched.html", csvContent []⟩ ∧
      save_html ["data"] sampleDoc "data/fetched.html"
        = .ok ⟨"data/fetched.html", render sampleDoc⟩) :=
  ⟨(c10_save_directory_step [] [] sampleDoc "top10_rankings.csv").1 (by decide),
    (c10_save_directory_step ["data"] [] sampleDoc "data/fetched.html").2 (by decide)⟩
